import Mathlib

/-!
# Verification of the seo-analyzer-api external-call subsystem

A shallow embedding of the server's helpers — `getDataForSeoAuthHeader`
(CredentialResolver), `callDataForSeo` (RetryingRequestClient),
`extractOrganicItemsFromDfResponse` (ResultNormalizer) — and of the
`/api/seo-analysis` handler's pure control flow (AnalysisOrchestrator),
together with theorems checking the specification's claims about them.

JavaScript values flowing through these functions are modelled by a
JSON-like tree `Json`; JS truthiness, property access, `parseInt`,
`Buffer.toString('base64')` and the `/^(Basic\s*)/i` strip are embedded
explicitly.  Numbers are modelled as integers (`NaN` arises only from
`parseInt`, which returns `Option Int` with `none` standing for `NaN`).
-/

/-- A JSON-compatible JavaScript value (objects as association lists). -/
inductive Json where
  | null
  | bool (b : Bool)
  | num (n : Int)
  | str (s : String)
  | arr (elems : List Json)
  | obj (fields : List (String × Json))

/-- Association-list lookup used for JS property access on objects. -/
def lookupField : List (String × Json) → String → Option Json
  | [], _ => none
  | (k, v) :: rest, key => if k == key then some v else lookupField rest key

/-- JS property access `j.key`: `none` models `undefined` (also for any
non-object receiver, whose named properties are undefined here). -/
def getField (j : Json) (key : String) : Option Json :=
  match j with
  | Json.obj fields => lookupField fields key
  | _ => none

/-- JS truthiness of a value: `null`, `false`, `0` and `""` are falsy;
arrays and objects are always truthy. -/
def truthy : Json → Bool
  | Json.null => false
  | Json.bool b => b
  | Json.num n => n != 0
  | Json.str s => s != ""
  | Json.arr _ => true
  | Json.obj _ => true

/-! ## ResultNormalizer: `extractOrganicItemsFromDfResponse` -/

/-- Is the value the string `"organic"` (strict `===` comparison)? -/
def isOrganicStr : Json → Bool
  | Json.str s => s == "organic"
  | _ => false

/-- The organic-marker test of the filter in
`extractOrganicItemsFromDfResponse`: the entry must be a (truthy)
object and carry `type === 'organic'`, or `item_type === 'organic'`,
or an `item_types` array containing `'organic'`.  Non-objects (where
property access yields `undefined`) never qualify, matching the JS
guard `!it || typeof it !== 'object'`. -/
def isOrganicItem (it : Json) : Bool :=
  (match getField it "type" with
   | some v => isOrganicStr v
   | none => false) ||
  (match getField it "item_type" with
   | some v => isOrganicStr v
   | none => false) ||
  (match getField it "item_types" with
   | some (Json.arr ts) => ts.any isOrganicStr
   | _ => false)

/-- `Array.isArray(x.items) ? x.items : []`, as used both for the direct
items of the result object and for the one-level nested flattening. -/
def itemsOf (x : Json) : List Json :=
  match getField x "items" with
  | some (Json.arr xs) => xs
  | _ => []

/-- The guard cascade of `extractOrganicItemsFromDfResponse` up to the
result object, restricted to the throw-free paths: falsy input, a
missing/empty `tasks` array, a missing/empty `task.result` array, or a
falsy `result[0]` all yield `none` (the function then returns `[]`).
Note this projection is *not* total over the source's behaviour: when
the first task is `null`, the source dereferences it
(`task.status_code`, `task.result`) and throws a TypeError — that
failure path is modelled separately by `extractOrganicItemsRun`, and
`firstResultObj` is only used on inputs where it cannot fire. -/
def firstResultObj (dfData : Json) : Option Json :=
  if !truthy dfData then none
  else
    match getField dfData "tasks" with
    | some (Json.arr (task :: _)) =>
      match getField task "result" with
      | some (Json.arr (r :: _)) => if truthy r then some r else none
      | _ => none
    | _ => none

/-- The candidate pool built from a result object: its direct `items`,
and — when any direct item has a nested `items` array — the direct
items followed by the concatenation of those nested arrays (one level
of flattening only). -/
def poolOf (resultObj : Json) : List Json :=
  let items := itemsOf resultObj
  let nestedItems := (items.map itemsOf).flatten
  if nestedItems.length > 0 then items ++ nestedItems else items

/-- The candidate pool of a whole response (empty on every degenerate
shape rejected by the guard cascade). -/
def candidatePool (dfData : Json) : List Json :=
  match firstResultObj dfData with
  | none => []
  | some r => poolOf r

/-- The value `extractOrganicItemsFromDfResponse` computes on its
non-throwing paths: filter the candidate pool for organic-tagged
entries; if none matched, fall back to the unfiltered pool; every
degenerate shape yields `[]`.  (The single throwing path — a `null`
first task — is modelled by `extractOrganicItemsRun`, which returns
this value whenever it does not throw.) -/
def extractOrganicItemsFromDfResponse (dfData : Json) : List Json :=
  match firstResultObj dfData with
  | none => []
  | some r =>
    let items := poolOf r
    let organic := items.filter isOrganicItem
    if organic.length > 0 then organic else items

/-- Does the `tasks` array exist, is it non-empty, and is its first
element `null`?  On exactly these inputs the source's
`console.log(..., task.status_code, ...)` and `task.result` (lines
96–98) dereference `null` and throw a TypeError. -/
def firstTaskNull (dfData : Json) : Bool :=
  truthy dfData &&
    (match getField dfData "tasks" with
     | some (Json.arr (Json.null :: _)) => true
     | _ => false)

/-- The fallible embedding of `extractOrganicItemsFromDfResponse`,
including its one failure path: after the initial guard admits a
non-empty `tasks` array, the source dereferences the first task
(`task.status_code`, then `task.result`) before any further guard, so
a `null` first task throws a TypeError (`Except.error ()`).  On every
non-null first task the rest of the source (lines 98–117) is exactly
the throw-free computation already embedded as
`extractOrganicItemsFromDfResponse`, to which this definition defers;
property access never throws again past that point, since every later
dereference is guarded (`!resultObj`, `it &&`, `typeof it`). -/
def extractOrganicItemsRun (dfData : Json) : Except Unit (List Json) :=
  if !truthy dfData then Except.ok []
  else
    match getField dfData "tasks" with
    | some (Json.arr (task :: _)) =>
      match task with
      | Json.null => Except.error ()
      | _ => Except.ok (extractOrganicItemsFromDfResponse dfData)
    | _ => Except.ok []

/-- A concrete upstream result record tagged organic via `item_type`. -/
def sampleOrganicItem : Json :=
  Json.obj [("item_type", Json.str "organic"), ("rank", Json.num 1)]

/-- A concrete non-organic record (`item_type: "paid"`). -/
def samplePaidItem : Json :=
  Json.obj [("item_type", Json.str "paid")]

/-- A concrete non-organic record (`type: "featured_snippet"`). -/
def sampleSnippetItem : Json :=
  Json.obj [("type", Json.str "featured_snippet")]

/-- A well-shaped provider response whose first task's first result
object carries the given `items`. -/
def dfResponseWith (items : List Json) : Json :=
  Json.obj
    [("tasks", Json.arr
      [Json.obj [("result", Json.arr
        [Json.obj [("items", Json.arr items)]])]])]

/-! ## RetryingRequestClient: `callDataForSeo`

The options object and the retry loop of `callDataForSeo`.  An attempt's
observable outcome is either a network/transport error (carrying the
optional `err.response?.data` payload) or an HTTP response body; the
body is then subjected to the top-level status check
`response.data && response.data.status_code && response.data.status_code !== 20000`,
which converts a logical rejection into a failed attempt carrying the
body as its payload.  The loop is modelled as a pure recursion returning
the final outcome, the number of attempts performed, and the list of
backoff delays slept between attempts. -/

/-- The `opts` object of `callDataForSeo`; `none` models an absent
property. -/
structure Opts where
  retries : Option Nat
  baseDelayMs : Option Nat
  timeoutMs : Option Nat

/-- `opts.retries || 3`: an absent or falsy (zero) value falls back to 3. -/
def maxAttemptsOf (o : Opts) : Nat :=
  match o.retries with
  | some (Nat.succ n) => Nat.succ n
  | _ => 3

/-- `opts.baseDelayMs || 500`: an absent or falsy (zero) value falls
back to 500. -/
def baseDelayOf (o : Opts) : Nat :=
  match o.baseDelayMs with
  | some (Nat.succ n) => Nat.succ n
  | _ => 500

/-- What one attempt against the upstream observably yields. -/
inductive AttemptOutcome where
  | networkError (payload : Option Json)
  | response (data : Json)

/-- Is the value the number `20000` (strict `===` comparison)? -/
def isNum20000 : Json → Bool
  | Json.num n => n == 20000
  | _ => false

/-- The top-level status check: a truthy body whose `status_code` is
truthy and strictly distinct from `20000` is a logical rejection. -/
def dfLogicalFailure (data : Json) : Bool :=
  truthy data &&
    (match getField data "status_code" with
     | some sc => truthy sc && !isNum20000 sc
     | none => false)

/-- The body of one iteration's `try` block: a network error fails with
its payload; a response body failing the status check fails with the
body as payload (`err.serverData`); otherwise the body is returned. -/
def attemptStep : AttemptOutcome → Except (Option Json) Json
  | AttemptOutcome.networkError payload => Except.error payload
  | AttemptOutcome.response data =>
    if dfLogicalFailure data then Except.error (some data) else Except.ok data

/-- The retry loop of `callDataForSeo`, recursing on the number of
attempts remaining; `attempt` is the 1-indexed number of the current
attempt.  Returns (final outcome, attempts performed, delays slept).
On the final attempt's failure the error carries the last observed
payload; otherwise the loop sleeps `baseDelay * 2 ^ (attempt - 1)` and
re-attempts. -/
def callLoop (upstream : Nat → AttemptOutcome) (baseDelay : Nat) :
    Nat → Nat → Except (Option Json) Json × (Nat × List Nat)
  | _, 0 => (Except.error none, (0, []))
  | attempt, Nat.succ rem =>
    match attemptStep (upstream attempt) with
    | Except.ok data => (Except.ok data, (1, []))
    | Except.error payload =>
      match rem with
      | 0 => (Except.error payload, (1, []))
      | Nat.succ r =>
        let delay := baseDelay * 2 ^ (attempt - 1)
        let rest := callLoop upstream baseDelay (attempt + 1) (Nat.succ r)
        (rest.1, (rest.2.1 + 1, delay :: rest.2.2))

/-- `callDataForSeo`'s retry behaviour: run the loop from attempt 1 with
the defaulted attempt bound and base delay. -/
def callDataForSeo (upstream : Nat → AttemptOutcome) (opts : Opts) :
    Except (Option Json) Json × (Nat × List Nat) :=
  callLoop upstream (baseDelayOf opts) 1 (maxAttemptsOf opts)

/-- An upstream that fails every attempt at the transport level with no
response payload. -/
def alwaysFailingUpstream : Nat → AttemptOutcome :=
  fun _ => AttemptOutcome.networkError none

/-! ## CredentialResolver: `getDataForSeoAuthHeader`

`Buffer.from(login + ":" + password).toString('base64')` is embedded as
UTF-8 encoding followed by standard base64; the
`precomputed.replace(/^(Basic\s*)/i, '')` strip is embedded as dropping
one leading case-insensitive `Basic` together with the whitespace
following it. -/

/-- UTF-8 bytes of one character (what `Buffer.from` sees). -/
def utf8Bytes (c : Char) : List Nat :=
  let n := c.toNat
  if n < 128 then [n]
  else if n < 2048 then [192 + n / 64, 128 + n % 64]
  else if n < 65536 then [224 + n / 4096, 128 + n / 64 % 64, 128 + n % 64]
  else [240 + n / 262144, 128 + n / 4096 % 64, 128 + n / 64 % 64, 128 + n % 64]

/-- UTF-8 bytes of a string. -/
def strBytes (s : String) : List Nat :=
  (s.toList.map utf8Bytes).flatten

/-- The base64 alphabet. -/
def base64Chars : List Char :=
  "ABCDEFGHIJKLMNOPQRSTUVWXYZabcdefghijklmnopqrstuvwxyz0123456789+/".toList

/-- The base64 digit for a 6-bit value. -/
def b64Char (n : Nat) : Char := base64Chars.getD n 'A'

/-- Standard base64 of a byte sequence with `=` padding, as produced by
`Buffer.toString('base64')`. -/
def base64Encode : List Nat → String
  | [] => ""
  | [a] => String.mk [b64Char (a / 4), b64Char (a % 4 * 16), '=', '=']
  | [a, b] =>
    String.mk [b64Char (a / 4), b64Char (a % 4 * 16 + b / 16),
      b64Char (b % 16 * 4), '=']
  | a :: b :: c :: rest =>
    String.mk [b64Char (a / 4), b64Char (a % 4 * 16 + b / 16),
      b64Char (b % 16 * 4 + c / 64), b64Char (c % 64)] ++ base64Encode rest

/-- The ASCII characters of JS regex `\s` relevant to header values. -/
def isJsSpace (c : Char) : Bool :=
  c == ' ' || c == '\t' || c == '\n' || c == '\r' ||
  c == Char.ofNat 11 || c == Char.ofNat 12

/-- `precomputed.replace(/^(Basic\s*)/i, '')`: when the string starts
with `Basic` (case-insensitive), drop it and the whitespace after it;
otherwise leave the string unchanged. -/
def stripBasicScheme (s : String) : String :=
  let cs := s.toList
  if (cs.take 5).map Char.toLower = "basic".toList then
    String.mk ((cs.drop 5).dropWhile isJsSpace)
  else s

/-- The configured secret sources (`DATAFORSEO_LOGIN`,
`DATAFORSEO_PASSWORD`, `DATAFORSEO_API_AUTH`); `none` models an unset
variable. -/
structure Env where
  login : Option String
  password : Option String
  apiAuth : Option String

/-- JS truthiness of an env var: set and non-empty. -/
def optTruthy : Option String → Bool
  | some s => !s.isEmpty
  | none => false

/-- Outcome of credential resolution: a header value, or the thrown
missing-credentials configuration error. -/
inductive AuthResult where
  | header (value : String)
  | configError

/-- `getDataForSeoAuthHeader`: username+password pair first, then the
precomputed credential with a redundant scheme prefix stripped, else
the configuration error. -/
def getDataForSeoAuthHeader (env : Env) : AuthResult :=
  if optTruthy env.login && optTruthy env.password then
    AuthResult.header ("Basic " ++
      base64Encode (strBytes (env.login.getD "" ++ ":" ++ env.password.getD "")))
  else if optTruthy env.apiAuth then
    AuthResult.header ("Basic " ++ stripBasicScheme (env.apiAuth.getD ""))
  else
    AuthResult.configError

/-! ## AnalysisOrchestrator: the `/api/seo-analysis` handler

Only the claim-relevant control flow is embedded: input validation, the
`parseInt` coercion of `location_code`, the upstream call with
`retries: 3`, and the construction of `raw_data_snippet` (first 5
normalized records) alongside the 8-record sample cut for the
text-generation prompt.  The narrative text and echoed status fields of
the success body are opaque to every claim and are not modelled. -/

-- `String(v)` for the modelled JS values (arrays join their elements
-- with commas, `null` elements becoming empty).
mutual

/-- `String(v)` on a JS value. -/
def jsToString : Json → String
  | Json.null => "null"
  | Json.bool true => "true"
  | Json.bool false => "false"
  | Json.num n => toString n
  | Json.str s => s
  | Json.arr xs => jsArrJoin xs
  | Json.obj _ => "[object Object]"

def jsArrJoin : List Json → String
  | [] => ""
  | [x] => jsElemString x
  | x :: y :: rest => jsElemString x ++ "," ++ jsArrJoin (y :: rest)

def jsElemString : Json → String
  | Json.null => ""
  | Json.bool true => "true"
  | Json.bool false => "false"
  | Json.num n => toString n
  | Json.str s => s
  | Json.arr xs => jsArrJoin xs
  | Json.obj _ => "[object Object]"

end

/-- Value of a decimal digit run. -/
def digitsToNat (ds : List Char) : Nat :=
  ds.foldl (fun acc c => acc * 10 + (c.toNat - 48)) 0

/-- Hexadecimal digit test. -/
def isHexDigit (c : Char) : Bool :=
  c.isDigit || ('a' ≤ c && c ≤ 'f') || ('A' ≤ c && c ≤ 'F')

/-- Value of a hexadecimal digit. -/
def hexVal (c : Char) : Nat :=
  if c.isDigit then c.toNat - 48
  else if 'a' ≤ c && c ≤ 'f' then c.toNat - 87
  else c.toNat - 55

/-- Value of a hexadecimal digit run. -/
def hexDigitsToNat (ds : List Char) : Nat :=
  ds.foldl (fun acc c => acc * 16 + hexVal c) 0

/-- JS `parseInt(s)` with no radix argument: skip leading whitespace,
read an optional sign, detect a `0x`/`0X` prefix, and parse the longest
leading digit run; `none` models `NaN`. -/
def parseIntStr (s : String) : Option Int :=
  let cs := s.toList.dropWhile isJsSpace
  let signed : Int × List Char :=
    match cs with
    | '-' :: rest => (-1, rest)
    | '+' :: rest => (1, rest)
    | _ => (1, cs)
  match signed.2 with
  | '0' :: 'x' :: rest =>
    let ds := rest.takeWhile isHexDigit
    if ds.isEmpty then none else some (signed.1 * Int.ofNat (hexDigitsToNat ds))
  | '0' :: 'X' :: rest =>
    let ds := rest.takeWhile isHexDigit
    if ds.isEmpty then none else some (signed.1 * Int.ofNat (hexDigitsToNat ds))
  | _ =>
    let ds := (signed.2).takeWhile Char.isDigit
    if ds.isEmpty then none else some (signed.1 * Int.ofNat (digitsToNat ds))

/-- `parseInt(rawLocationCode)` on a JS value: stringify, then parse. -/
def parseIntJs (j : Json) : Option Int := parseIntStr (jsToString j)

/-- What the handler decides before any upstream request: reject with
the 400 validation response, or proceed carrying the coerced
`location_code` (`none` = `NaN`). -/
inductive PreOutcome where
  | validationError
  | proceed (locationCode : Option Int)

/-- The pre-upstream phase of the `/api/seo-analysis` handler:
destructure the body (with `location_code` defaulting to `2840` when
absent), coerce `location_code` with `parseInt`, and reject with the
400 error when `domain` or `keyword` is falsy. -/
def seoAnalysisPre (body : Json) : PreOutcome :=
  let domain := (getField body "domain").getD Json.null
  let keyword := (getField body "keyword").getD Json.null
  let rawLocationCode := (getField body "location_code").getD (Json.num 2840)
  let locationCode := parseIntJs rawLocationCode
  if !truthy domain || !truthy keyword then PreOutcome.validationError
  else PreOutcome.proceed locationCode

/-- The handler's observable responses: the 400 validation error body,
the 500 failure body (with the upstream's last payload as `details`),
or the 200 success body's claim-relevant fields — `raw_data_snippet`
and the truncated sample passed to the text-generation prompt. -/
inductive HandlerResult where
  | badRequest
  | serverError (details : Option Json)
  | success (rawDataSnippet : List Json) (aiSample : List Json)

/-- The `/api/seo-analysis` handler: validate, call the upstream with
`retries: 3`, normalize, and build the response; paired with the
number of upstream attempts actually performed (0 when validation
rejects the request). -/
def seoAnalysisHandler (body : Json) (upstream : Nat → AttemptOutcome) :
    HandlerResult × Nat :=
  match seoAnalysisPre body with
  | PreOutcome.validationError => (HandlerResult.badRequest, 0)
  | PreOutcome.proceed _ =>
    match (callDataForSeo upstream (Opts.mk (some 3) none none)).1 with
    | Except.error payload =>
      (HandlerResult.serverError payload,
       (callDataForSeo upstream (Opts.mk (some 3) none none)).2.1)
    | Except.ok data =>
      (HandlerResult.success
        ((extractOrganicItemsFromDfResponse data).take 5)
        ((extractOrganicItemsFromDfResponse data).take 8),
       (callDataForSeo upstream (Opts.mk (some 3) none none)).2.1)

/-- `getField body key` is absent or the empty string. -/
def fieldMissingOrEmpty (body : Json) (key : String) : Prop :=
  getField body key = none ∨ getField body key = some (Json.str "")

/-- A request body whose `location_code` is the non-numeric string
`"abc"` but whose `domain` and `keyword` are present and non-empty. -/
def nonNumericLocationBody : Json :=
  Json.obj [("domain", Json.str "example.com"), ("keyword", Json.str "shoes"),
    ("location_code", Json.str "abc")]

/-- A request body missing `keyword`. -/
def missingKeywordBody : Json :=
  Json.obj [("domain", Json.str "example.com")]

/-- A well-formed request body. -/
def okBody : Json :=
  Json.obj [("domain", Json.str "example.com"), ("keyword", Json.str "shoes")]

/-- An upstream that immediately returns a well-shaped body holding one
organic record. -/
def okUpstream : Nat → AttemptOutcome :=
  fun _ => AttemptOutcome.response (dfResponseWith [sampleOrganicItem])

theorem extract_eq_filter_or_pool (dfData : Json) :
    extractOrganicItemsFromDfResponse dfData =
      (if ((candidatePool dfData).filter isOrganicItem).length > 0
       then (candidatePool dfData).filter isOrganicItem
       else candidatePool dfData) := by
  unfold extractOrganicItemsFromDfResponse candidatePool
  cases firstResultObj dfData <;> simp

/-- C3: if any entry of the candidate pool carries one of the three
organic markers, the normalizer returns exactly the organic-tagged
entries of the pool, in their original order. -/
theorem organic_entries_extracted_exactly (dfData : Json)
    (h : (candidatePool dfData).any isOrganicItem = true) :
    extractOrganicItemsFromDfResponse dfData =
      (candidatePool dfData).filter isOrganicItem := by
  rw [extract_eq_filter_or_pool]
  rw [List.any_eq_true] at h
  obtain ⟨x, hx, hox⟩ := h
  have hmem : x ∈ (candidatePool dfData).filter isOrganicItem :=
    List.mem_filter.mpr ⟨hx, hox⟩
  have hpos : 0 < ((candidatePool dfData).filter isOrganicItem).length :=
    List.length_pos.mpr (List.ne_nil_of_mem hmem)
  simp [hpos]

/-- Witness for C3 at a concrete response whose pool holds one organic
and one non-organic entry. -/
theorem organic_entries_extracted_exactly_witness :
    extractOrganicItemsFromDfResponse
        (dfResponseWith [sampleOrganicItem, samplePaidItem]) =
      (candidatePool
        (dfResponseWith [sampleOrganicItem, samplePaidItem])).filter
        isOrganicItem :=
  organic_entries_extracted_exactly _ rfl

/-- C4: if the candidate pool is non-empty but no entry carries any of
the three organic markers, the normalizer returns the full unfiltered
pool, preserving order. -/
theorem fallback_returns_unfiltered_pool (dfData : Json)
    (_hne : candidatePool dfData ≠ [])
    (h : (candidatePool dfData).all (fun it => !isOrganicItem it) = true) :
    extractOrganicItemsFromDfResponse dfData = candidatePool dfData := by
  rw [extract_eq_filter_or_pool]
  have hnil : (candidatePool dfData).filter isOrganicItem = [] := by
    rw [List.filter_eq_nil_iff]
    intro a ha
    have := List.all_eq_true.mp h a ha
    simpa using this
  simp [hnil]

/-- Witness for C4 at a concrete response with two non-organic items. -/
theorem fallback_returns_unfiltered_pool_witness :
    extractOrganicItemsFromDfResponse
        (dfResponseWith [samplePaidItem, sampleSnippetItem]) =
      candidatePool
        (dfResponseWith [samplePaidItem, sampleSnippetItem]) :=
  fallback_returns_unfiltered_pool _ (by simp [candidatePool, dfResponseWith,
    firstResultObj, truthy, getField, lookupField, poolOf, itemsOf,
    samplePaidItem, sampleSnippetItem]) rfl

/-- C5 is refuted on the code: the normalizer is not total.  At the
concrete response whose `tasks` array is non-empty with a `null` first
task — an input on which the claim requires the empty sequence, since
the result payload is missing — the source dereferences `null` and
throws a TypeError instead of returning. -/
theorem normalizer_throws_on_null_task_counterexample :
    extractOrganicItemsRun (Json.obj [("tasks", Json.arr [Json.null])]) =
      Except.error () ∧
    firstResultObj (Json.obj [("tasks", Json.arr [Json.null])]) = none :=
  ⟨rfl, rfl⟩

/-- C5 amended: the normalizer fails on exactly one kind of input — a
non-empty `tasks` array whose first task is `null`, where it throws a
TypeError.  On every other input it never fails: it returns the value
of the throw-free extraction, which is the empty sequence whenever the
guard cascade finds no usable result object (falsy input,
missing/empty `tasks`, missing or non-non-empty `result`, falsy first
result element). -/
theorem normalizer_total_unless_null_first_task (dfData : Json) :
    (firstTaskNull dfData = true →
      extractOrganicItemsRun dfData = Except.error ()) ∧
    (firstTaskNull dfData = false →
      extractOrganicItemsRun dfData =
        Except.ok (extractOrganicItemsFromDfResponse dfData)) ∧
    (firstTaskNull dfData = false → firstResultObj dfData = none →
      extractOrganicItemsRun dfData = Except.ok []) := by
  have h2 : firstTaskNull dfData = false →
      extractOrganicItemsRun dfData =
        Except.ok (extractOrganicItemsFromDfResponse dfData) := by
    intro hft
    unfold firstTaskNull at hft
    unfold extractOrganicItemsRun
    cases hT : truthy dfData with
    | false =>
      simp [extractOrganicItemsFromDfResponse, firstResultObj, hT]
    | true =>
      rw [hT] at hft
      simp only [Bool.true_and] at hft
      cases hG : getField dfData "tasks" with
      | none =>
        simp [extractOrganicItemsFromDfResponse, firstResultObj, hT, hG]
      | some t =>
        rw [hG] at hft
        cases t with
        | null =>
          simp [extractOrganicItemsFromDfResponse, firstResultObj, hT, hG]
        | bool b =>
          simp [extractOrganicItemsFromDfResponse, firstResultObj, hT, hG]
        | num n =>
          simp [extractOrganicItemsFromDfResponse, firstResultObj, hT, hG]
        | str s =>
          simp [extractOrganicItemsFromDfResponse, firstResultObj, hT, hG]
        | obj fs =>
          simp [extractOrganicItemsFromDfResponse, firstResultObj, hT, hG]
        | arr l =>
          cases l with
          | nil =>
            simp [extractOrganicItemsFromDfResponse, firstResultObj, hT, hG]
          | cons task rest =>
            cases task with
            | null => simp at hft
            | bool b => simp
            | num n => simp
            | str s => simp
            | arr xs => simp
            | obj fs => simp
  refine ⟨?_, h2, ?_⟩
  · intro h1
    unfold firstTaskNull at h1
    rw [Bool.and_eq_true] at h1
    obtain ⟨hT, hM⟩ := h1
    unfold extractOrganicItemsRun
    cases hG : getField dfData "tasks" with
    | none => rw [hG] at hM; simp at hM
    | some t =>
      rw [hG] at hM
      cases t with
      | null => simp at hM
      | bool b => simp at hM
      | num n => simp at hM
      | str s => simp at hM
      | obj fs => simp at hM
      | arr l =>
        cases l with
        | nil => simp at hM
        | cons task rest =>
          cases task with
          | null => simp [hT]
          | bool b => simp at hM
          | num n => simp at hM
          | str s => simp at hM
          | arr xs => simp at hM
          | obj fs => simp at hM
  · intro hft hr
    rw [h2 hft]
    unfold extractOrganicItemsFromDfResponse
    rw [hr]

/-- Witness for the amended C5: a well-shaped response with one record
runs without error and yields the throw-free extraction, and a task
with a malformed (non-array) `result` payload yields the empty
sequence without error. -/
theorem normalizer_total_unless_null_first_task_witness :
    extractOrganicItemsRun (dfResponseWith [sampleOrganicItem]) =
      Except.ok (extractOrganicItemsFromDfResponse
        (dfResponseWith [sampleOrganicItem])) ∧
    extractOrganicItemsRun
        (Json.obj [("tasks", Json.arr
          [Json.obj [("result", Json.str "oops")]])]) = Except.ok [] :=
  ⟨(normalizer_total_unless_null_first_task _).2.1 rfl,
   (normalizer_total_unless_null_first_task _).2.2 rfl rfl⟩

/-! ## Retry loop lemmas -/

theorem callLoop_ok_step (upstream : Nat → AttemptOutcome) (b attempt r : Nat)
    (data : Json)
    (h : attemptStep (upstream attempt) = Except.ok data) :
    callLoop upstream b attempt (r + 1) = (Except.ok data, (1, [])) := by
  show callLoop upstream b attempt (Nat.succ r) = _
  conv_lhs => rw [callLoop]
  rw [h]

theorem callLoop_fail_last (upstream : Nat → AttemptOutcome) (b attempt : Nat)
    (payload : Option Json)
    (h : attemptStep (upstream attempt) = Except.error payload) :
    callLoop upstream b attempt 1 = (Except.error payload, (1, [])) := by
  show callLoop upstream b attempt (Nat.succ 0) = _
  conv_lhs => rw [callLoop]
  rw [h]

theorem callLoop_fail_step (upstream : Nat → AttemptOutcome) (b attempt r : Nat)
    (payload : Option Json)
    (h : attemptStep (upstream attempt) = Except.error payload) :
    callLoop upstream b attempt (r + 2) =
      ((callLoop upstream b (attempt + 1) (r + 1)).1,
       ((callLoop upstream b (attempt + 1) (r + 1)).2.1 + 1,
        b * 2 ^ (attempt - 1) :: (callLoop upstream b (attempt + 1) (r + 1)).2.2)) := by
  show callLoop upstream b attempt (Nat.succ (r + 1)) = _
  conv_lhs => rw [callLoop]
  rw [h]

theorem callLoop_allFail_res (upstream : Nat → AttemptOutcome) (p : Nat → Option Json)
    (b : Nat) (h : ∀ k, attemptStep (upstream k) = Except.error (p k)) :
    ∀ rem a, (callLoop upstream b (a + 1) (rem + 1)).1 =
        Except.error (p (a + rem + 1)) ∧
      (callLoop upstream b (a + 1) (rem + 1)).2.1 = rem + 1 := by
  intro rem
  induction rem with
  | zero =>
    intro a
    rw [callLoop_fail_last upstream b (a + 1) (p (a + 1)) (h (a + 1))]
    exact ⟨congrArg Except.error (congrArg p (by omega)), rfl⟩
  | succ r ih =>
    intro a
    rw [show r + 1 + 1 = r + 2 from rfl,
      callLoop_fail_step upstream b (a + 1) r (p (a + 1)) (h (a + 1))]
    constructor
    · show (callLoop upstream b (a + 1 + 1) (r + 1)).1 = _
      rw [(ih (a + 1)).1]
      exact congrArg Except.error (congrArg p (by omega))
    · show (callLoop upstream b (a + 1 + 1) (r + 1)).2.1 + 1 = r + 1 + 1
      rw [(ih (a + 1)).2]

theorem maxAttemptsOf_pos (o : Opts) : ∃ m, maxAttemptsOf o = m + 1 := by
  unfold maxAttemptsOf
  cases hr : o.retries with
  | none => exact ⟨2, rfl⟩
  | some n =>
    cases n with
    | zero => exact ⟨2, rfl⟩
    | succ k => exact ⟨k, rfl⟩

theorem callLoop_delay_at (upstream : Nat → AttemptOutcome) (b : Nat) :
    ∀ rem a i d, ((callLoop upstream b (a + 1) rem).2.2).get? i = some d →
      d = b * 2 ^ (a + i) := by
  intro rem
  induction rem with
  | zero =>
    intro a i d hd
    have hz : callLoop upstream b (a + 1) 0 = (Except.error none, (0, [])) := rfl
    rw [hz] at hd
    simp [List.get?] at hd
  | succ r ih =>
    intro a i d hd
    cases hstep : attemptStep (upstream (a + 1)) with
    | ok data =>
      rw [callLoop_ok_step upstream b (a + 1) r data hstep] at hd
      simp [List.get?] at hd
    | error payload =>
      cases r with
      | zero =>
        rw [callLoop_fail_last upstream b (a + 1) payload hstep] at hd
        simp [List.get?] at hd
      | succ r2 =>
        rw [show r2 + 1 + 1 = r2 + 2 from rfl,
          callLoop_fail_step upstream b (a + 1) r2 payload hstep] at hd
        cases i with
        | zero =>
          rw [List.get?_cons_zero] at hd
          have hd2 : b * 2 ^ (a + 1 - 1) = d := Option.some.inj hd
          rw [← hd2]
          exact congrArg (fun e => b * 2 ^ e) (by omega)
        | succ j =>
          rw [List.get?_cons_succ] at hd
          have hrec := ih (a + 1) j d hd
          have harith : a + 1 + j = a + (j + 1) := by omega
          rw [harith] at hrec
          exact hrec

/-- C1 is refuted on the code: `callDataForSeo` treats `opts.retries` as
the *total* attempt bound, not a retry budget.  With `retries = 3` (the
orchestrator's own setting, equal to the default) and an upstream that
fails every attempt, exactly 3 attempts occur — not `3 + 1 = 4` as the
claim states. -/
theorem retry_budget_plus_one_counterexample :
    (callDataForSeo alwaysFailingUpstream (Opts.mk (some 3) none none)).2.1 = 3 ∧
    (callDataForSeo alwaysFailingUpstream (Opts.mk (some 3) none none)).2.1 ≠ 3 + 1 := by
  exact ⟨rfl, by decide⟩

/-- C1 amended: for every upstream that fails on all attempts,
`callDataForSeo` performs exactly `opts.retries || 3` attempts (so
exactly 3 with the orchestrator's `retries = 3`, which coincides with
the default) before raising, and the raised error retains the payload
observed on the last attempt. -/
theorem retry_attempts_equal_retries_option (upstream : Nat → AttemptOutcome)
    (p : Nat → Option Json) (o : Opts)
    (h : ∀ k, attemptStep (upstream k) = Except.error (p k)) :
    (callDataForSeo upstream o).2.1 = maxAttemptsOf o ∧
    (callDataForSeo upstream o).1 = Except.error (p (maxAttemptsOf o)) := by
  obtain ⟨m, hm⟩ := maxAttemptsOf_pos o
  have h0 := callLoop_allFail_res upstream p (baseDelayOf o) h m 0
  simp only [Nat.zero_add] at h0
  unfold callDataForSeo
  rw [hm]
  exact ⟨h0.2, h0.1⟩

/-- Witness for the amended C1: with an always-failing upstream and
`retries = 3`, the call makes `maxAttemptsOf` (= 3) attempts and raises
with the last payload. -/
theorem retry_attempts_equal_retries_option_witness :
    (callDataForSeo alwaysFailingUpstream (Opts.mk (some 3) none none)).2.1 =
      maxAttemptsOf (Opts.mk (some 3) none none) ∧
    (callDataForSeo alwaysFailingUpstream (Opts.mk (some 3) none none)).1 =
      Except.error none :=
  retry_attempts_equal_retries_option alwaysFailingUpstream (fun _ => none) _
    (fun _ => rfl)

/-- C7: whenever the retry loop records a delay at 0-based position `i`
(the sleep after 1-indexed failed attempt `k = i + 1`, before attempt
`k + 1`), that delay equals `baseDelay * 2 ^ i = baseDelay * 2 ^ (k - 1)`
— exponential backoff with no jitter. -/
theorem backoff_delay_formula (upstream : Nat → AttemptOutcome) (o : Opts)
    (i d : Nat)
    (h : ((callDataForSeo upstream o).2.2).get? i = some d) :
    d = baseDelayOf o * 2 ^ i := by
  have hd := callLoop_delay_at upstream (baseDelayOf o) (maxAttemptsOf o) 0 i d h
  simpa using hd

/-- Witness for C7: with default options and an always-failing upstream,
the delay recorded after the second attempt is `500 * 2 ^ 1 = 1000`. -/
theorem backoff_delay_formula_witness :
    (1000 : Nat) = baseDelayOf (Opts.mk none none none) * 2 ^ 1 :=
  backoff_delay_formula alwaysFailingUpstream (Opts.mk none none none) 1 1000 rfl

/-- C9 is partly refuted on the code: a single-attempt (zero-retry) run
*is* expressible through the `retries` option — passing `retries = 1`
makes `callDataForSeo` perform exactly one attempt and sleep no backoff
delay. -/
theorem single_attempt_via_retries_one :
    callDataForSeo alwaysFailingUpstream (Opts.mk (some 1) none none) =
      (Except.error none, (1, [])) := rfl

/-- C9 amended: `retries = 0` (falsy) and an absent `retries` both fall
back to the default of 3 total attempts, so a single attempt cannot be
requested *via the value 0*; it can be requested via `retries = 1`.
Likewise `baseDelayMs = 0` and an absent `baseDelayMs` fall back to the
500 ms default. -/
theorem falsy_retry_options_default (upstream : Nat → AttemptOutcome)
    (p : Nat → Option Json)
    (h : ∀ k, attemptStep (upstream k) = Except.error (p k)) :
    (callDataForSeo upstream (Opts.mk (some 0) none none)).2.1 = 3 ∧
    (callDataForSeo upstream (Opts.mk none none none)).2.1 = 3 ∧
    (callDataForSeo upstream (Opts.mk (some 1) none none)).2.1 = 1 ∧
    baseDelayOf (Opts.mk none (some 0) none) = 500 ∧
    baseDelayOf (Opts.mk none none none) = 500 := by
  have h3 := (callLoop_allFail_res upstream p 500 h 2 0).2
  simp only [Nat.zero_add] at h3
  have h1 := (callLoop_allFail_res upstream p 500 h 0 0).2
  simp only [Nat.zero_add] at h1
  exact ⟨h3, h3, h1, rfl, rfl⟩

/-- Witness for the amended C9 at the always-failing upstream. -/
theorem falsy_retry_options_default_witness :
    (callDataForSeo alwaysFailingUpstream (Opts.mk (some 0) none none)).2.1 = 3 ∧
    (callDataForSeo alwaysFailingUpstream (Opts.mk none none none)).2.1 = 3 ∧
    (callDataForSeo alwaysFailingUpstream (Opts.mk (some 1) none none)).2.1 = 1 ∧
    baseDelayOf (Opts.mk none (some 0) none) = 500 ∧
    baseDelayOf (Opts.mk none none none) = 500 :=
  falsy_retry_options_default alwaysFailingUpstream (fun _ => none) (fun _ => rfl)

/-- C6: `getDataForSeoAuthHeader` resolves its sources in a fixed
first-match order, never merging: a truthy username+password pair wins
and yields the Basic credential base64-encoding `username:password`;
otherwise a truthy precomputed credential is used with any redundant
leading `Basic` scheme prefix stripped; otherwise the configuration
error is raised. -/
theorem credential_resolution_first_match (env : Env) :
    ((optTruthy env.login && optTruthy env.password) = true →
      getDataForSeoAuthHeader env = AuthResult.header ("Basic " ++
        base64Encode (strBytes (env.login.getD "" ++ ":" ++ env.password.getD "")))) ∧
    ((optTruthy env.login && optTruthy env.password) = false →
      optTruthy env.apiAuth = true →
      getDataForSeoAuthHeader env =
        AuthResult.header ("Basic " ++ stripBasicScheme (env.apiAuth.getD ""))) ∧
    ((optTruthy env.login && optTruthy env.password) = false →
      optTruthy env.apiAuth = false →
      getDataForSeoAuthHeader env = AuthResult.configError) := by
  refine ⟨fun h1 => ?_, fun h1 h2 => ?_, fun h1 h2 => ?_⟩ <;>
    simp [getDataForSeoAuthHeader, h1]
  · simp [h2]
  · simp [h2]

/-- Witness for C6: all three branches at concrete environments; the
pair wins over a simultaneously set precomputed value, the precomputed
value has its redundant prefix stripped (to `Basic dXNlcjpwYXNz`), and
an empty configuration raises. -/
theorem credential_resolution_first_match_witness :
    getDataForSeoAuthHeader
        (Env.mk (some "user") (some "pass") (some "Basic dXNlcjpwYXNz")) =
      AuthResult.header "Basic dXNlcjpwYXNz" ∧
    getDataForSeoAuthHeader (Env.mk none (some "pass") (some "Basic dXNlcjpwYXNz")) =
      AuthResult.header "Basic dXNlcjpwYXNz" ∧
    getDataForSeoAuthHeader (Env.mk (some "user") none none) =
      AuthResult.configError :=
  ⟨((credential_resolution_first_match
      (Env.mk (some "user") (some "pass") (some "Basic dXNlcjpwYXNz"))).1
      rfl).trans rfl,
   ((credential_resolution_first_match
      (Env.mk none (some "pass") (some "Basic dXNlcjpwYXNz"))).2.1
      rfl rfl).trans rfl,
   (credential_resolution_first_match
      (Env.mk (some "user") none none)).2.2 rfl rfl⟩

/-- C2 is refuted on the code: with a non-numeric `location_code` and
well-formed `domain`/`keyword`, the handler does not fail with a
validation error — `parseInt` yields `NaN` (modelled `none`), the
request proceeds, and the upstream is actually called (three attempts
here, ending in the 500 response). -/
theorem location_code_validation_counterexample :
    seoAnalysisPre nonNumericLocationBody = PreOutcome.proceed none ∧
    seoAnalysisHandler nonNumericLocationBody alwaysFailingUpstream =
      (HandlerResult.serverError none, 3) :=
  ⟨rfl, rfl⟩

/-- C2 amended: the orchestrator coerces `location_code` with
`parseInt` but never validates the result: for every body with truthy
`domain` and `keyword` it proceeds — with `none` (`NaN`) as the coerced
code when the raw value is non-numeric — and a `ValidationError` is
never raised for `location_code`. -/
theorem nonnumeric_location_no_validation_error (body : Json)
    (hd : truthy ((getField body "domain").getD Json.null) = true)
    (hk : truthy ((getField body "keyword").getD Json.null) = true) :
    seoAnalysisPre body =
      PreOutcome.proceed
        (parseIntJs ((getField body "location_code").getD (Json.num 2840))) := by
  unfold seoAnalysisPre
  simp [hd, hk]

/-- Witness for the amended C2 at the non-numeric body. -/
theorem nonnumeric_location_no_validation_error_witness :
    seoAnalysisPre nonNumericLocationBody =
      PreOutcome.proceed (parseIntJs (Json.str "abc")) :=
  nonnumeric_location_no_validation_error nonNumericLocationBody rfl rfl

/-- C8: for every request whose `keyword` or `domain` is missing or
empty, the handler answers with the 400 validation error body and
performs zero upstream attempts — it fails before any network call. -/
theorem validation_precedes_upstream (body : Json)
    (upstream : Nat → AttemptOutcome)
    (h : fieldMissingOrEmpty body "keyword" ∨ fieldMissingOrEmpty body "domain") :
    seoAnalysisHandler body upstream = (HandlerResult.badRequest, 0) := by
  have hpre : seoAnalysisPre body = PreOutcome.validationError := by
    unfold seoAnalysisPre
    rcases h with h | h <;> rcases h with h | h <;> simp [h, truthy]
  unfold seoAnalysisHandler
  rw [hpre]

/-- Witness for C8 at a body missing `keyword`. -/
theorem validation_precedes_upstream_witness :
    seoAnalysisHandler missingKeywordBody alwaysFailingUpstream =
      (HandlerResult.badRequest, 0) :=
  validation_precedes_upstream missingKeywordBody alwaysFailingUpstream
    (Or.inl (Or.inl rfl))

/-- C10: every success response's `raw_data_snippet` is the first 5
records of the normalized sequence, in order (hence at most 5),
independently of the 8-record sample bound applied to the
text-generation prompt. -/
theorem snippet_bounded_by_five (body : Json) (upstream : Nat → AttemptOutcome)
    (s ai : List Json)
    (h : (seoAnalysisHandler body upstream).1 = HandlerResult.success s ai) :
    s.length ≤ 5 ∧
    ∃ data,
      (callDataForSeo upstream (Opts.mk (some 3) none none)).1 = Except.ok data ∧
      s = (extractOrganicItemsFromDfResponse data).take 5 ∧
      ai = (extractOrganicItemsFromDfResponse data).take 8 := by
  unfold seoAnalysisHandler at h
  cases hpre : seoAnalysisPre body with
  | validationError =>
    rw [hpre] at h
    simp at h
  | proceed loc =>
    rw [hpre] at h
    cases hcall : (callDataForSeo upstream (Opts.mk (some 3) none none)).1 with
    | error payload =>
      rw [hcall] at h
      simp at h
    | ok data =>
      rw [hcall] at h
      simp at h
      obtain ⟨hs, hai⟩ := h
      refine ⟨?_, data, rfl, hs.symm, hai.symm⟩
      rw [hs.symm]
      exact List.length_take_le 5 _

/-- Witness for C10 at a successful end-to-end run returning one
organic record. -/
theorem snippet_bounded_by_five_witness :
    ([sampleOrganicItem] : List Json).length ≤ 5 ∧
    ∃ data,
      (callDataForSeo okUpstream (Opts.mk (some 3) none none)).1 = Except.ok data ∧
      [sampleOrganicItem] = (extractOrganicItemsFromDfResponse data).take 5 ∧
      [sampleOrganicItem] = (extractOrganicItemsFromDfResponse data).take 8 :=
  snippet_bounded_by_five okBody okUpstream [sampleOrganicItem] [sampleOrganicItem] rfl
